import Mathlib

/-!
Verification of the streaming service adapter layer of `da1y/pipecat`:
a shallow embedding of `PocketTTSService.run_tts`
(src/pipecat/services/kyutai/tts.py) and of `VoskSTTService`
(src/pipecat/services/vosk/stt.py), with theorems settling the spec's
claims about frame sequences, header stripping, error handling and the
connection lifecycle.
-/

namespace Pipecat

/-! ## TTS data model (kyutai/tts.py) -/

/-- Frames the TTS adapter can yield: `ErrorFrame`, `TTSStartedFrame`,
`TTSAudioRawFrame` (audio bytes), `TTSStoppedFrame`. Bytes are modelled
as `List Nat`. -/
inductive TTSFrame where
  | errorFrame (msg : String)
  | ttsStartedFrame
  | audioFrame (bytes : List Nat)
  | ttsStoppedFrame
deriving DecidableEq, Repr

/-- Outcome of one HTTP exchange as observed by `run_tts`: the response
status, the result of reading the body text (`await response.text()` may
raise), the byte chunks delivered by `response.content.iter_chunked`
before the stream ends, and an optional exception raised by the stream
read after those chunks. -/
structure TTSResponse where
  status : Nat
  bodyText : Except String String
  chunks : List (List Nat)
  streamError : Option String
deriving Repr

/-- One `run_tts` invocation either fails before a response is available
(the POST itself raises) or observes a response. -/
inductive TTSExchange where
  | requestError (e : String)
  | response (r : TTSResponse)
deriving Repr

/-- Modelled from the spec: `TTSService._stream_audio_frames_from_iterator`
is not under src/. Per the spec, exactly the first header bytes (`rem`,
44 at the top call) are discarded once, buffering across transport chunks
until the header length is satisfied; all remaining bytes are forwarded
as audio frames, and transport chunk boundaries need not align with
emitted frame boundaries. Empty post-header chunks yield no frame. -/
def stripHeaderStream : Nat → List (List Nat) → List (List Nat)
  | _, [] => []
  | rem, c :: cs =>
      if (c.drop rem).isEmpty then stripHeaderStream (rem - c.length) cs
      else c.drop rem :: stripHeaderStream (rem - c.length) cs

/-- The WAV container header stripped by `run_tts` is the fixed minimal
44-byte header (spec §6). -/
def wavHeaderSize : Nat := 44

/-- Audio frames produced from the chunked response body with
`strip_wav_header=True`. -/
def streamAudioFrames (chunks : List (List Nat)) : List (List Nat) :=
  stripHeaderStream wavHeaderSize chunks

/-- The frames yielded by the `try`/`except` body of
`PocketTTSService.run_tts` (tts.py lines 68-90), as a function of the
exchange outcome.
* POST raises → the `except` branch yields one `ErrorFrame`;
* status ≠ 200 → the body text is read (that read may itself raise, and
  then the `except` branch runs), one `ErrorFrame` carrying only the
  status is yielded, and the generator returns;
* status = 200 → `TTSStartedFrame`, then the header-stripped audio
  frames, then, if the stream read raised, one `ErrorFrame` from the
  `except` branch. -/
def run_tts_body : TTSExchange → List TTSFrame
  | .requestError e => [.errorFrame ("Pocket TTS exception: " ++ e)]
  | .response r =>
     if r.status ≠ 200 then
       match r.bodyText with
       | .error e => [.errorFrame ("Pocket TTS exception: " ++ e)]
       | .ok _ => [.errorFrame ("Pocket TTS error: " ++ toString r.status)]
     else
       .ttsStartedFrame ::
         ((streamAudioFrames r.chunks).map TTSFrame.audioFrame ++
          (match r.streamError with
           | none => []
           | some e => [.errorFrame ("Pocket TTS exception: " ++ e)]))

/-- Shallow embedding of `PocketTTSService.run_tts` (tts.py lines
57-93): the full frame sequence of one invocation; the `finally` block
(tts.py lines 91-93) always yields `TTSStoppedFrame` last. -/
def run_tts (ex : TTSExchange) : List TTSFrame :=
  run_tts_body ex ++ [.ttsStoppedFrame]

/-- Whether a frame is an `ErrorFrame`. -/
def isErrorFrame : TTSFrame → Bool
  | .errorFrame _ => true
  | _ => false

/-- Whether a frame is a `TTSStoppedFrame`. -/
def isStoppedFrame : TTSFrame → Bool
  | .ttsStoppedFrame => true
  | _ => false

/-- Number of error frames in a frame sequence. -/
def countErrors (fs : List TTSFrame) : Nat :=
  fs.countP isErrorFrame

/-- Number of `TTSStoppedFrame`s in a frame sequence. -/
def countStopped (fs : List TTSFrame) : Nat :=
  fs.countP isStoppedFrame

/-- Concatenation of the audio bytes of a frame sequence. -/
def audioBytes : List TTSFrame → List Nat
  | [] => []
  | .audioFrame b :: rest => b ++ audioBytes rest
  | _ :: rest => audioBytes rest

/-- `run_tts` has no exception escape: an exchange raises iff the POST
raised, the body-text read raised on the non-200 path, or the stream
read raised on the 200 path; every such exception is caught. -/
def raisesDuringExchange : TTSExchange → Bool
  | .requestError _ => true
  | .response r =>
      if r.status ≠ 200 then
        (match r.bodyText with | .error _ => true | .ok _ => false)
      else r.streamError.isSome

/-- `aiohttp.ClientSession` as `run_tts` sees it: only whether it is
closed matters. -/
structure TTSSession where
  closed : Bool
deriving DecidableEq, Repr

/-- Mutable state of a `PocketTTSService` instance relevant to
`run_tts`: the optional HTTP session. -/
structure TTSServiceState where
  session : Option TTSSession
deriving DecidableEq, Repr

/-- tts.py lines 58-59: `run_tts` recreates the session when there is
none or it is closed. -/
def ensureSession (st : TTSServiceState) : TTSServiceState :=
  match st.session with
  | none => ⟨some ⟨false⟩⟩
  | some s => if s.closed then ⟨some ⟨false⟩⟩ else st

/-- One stateful `run_tts` call: the session check-and-recreate followed
by the exchange; the frame sequence depends only on the exchange
outcome. -/
def runTTSCall (st : TTSServiceState) (ex : TTSExchange) :
    TTSServiceState × List TTSFrame :=
  (ensureSession st, run_tts ex)

/-! ## STT data model (vosk/stt.py) -/

/-- A decoded Vosk JSON result message, as `_receive_messages` inspects
it: an optional "text" key and an optional "partial" key (the `interim`
field models the "partial" key; `none` means the key is absent). Other
keys and shapes carry nothing the loop reads. -/
structure VoskMsg where
  text : Option String
  interim : Option String
deriving DecidableEq, Repr

/-- Frames the STT adapter can push: `TranscriptionFrame` (final),
`InterimTranscriptionFrame`, `ErrorFrame`. -/
inductive STTFrame where
  | transcription (text : String)
  | interimTranscription (text : String)
  | error (msg : String)
deriving DecidableEq, Repr

/-- Shallow embedding of the message dispatch of
`VoskSTTService._receive_messages` (stt.py lines 68-87): `if "text" in
data:` pushes a `TranscriptionFrame` when the text is non-empty,
`elif "partial" in data:` pushes an `InterimTranscriptionFrame` when the
value is non-empty; empty values and other shapes push nothing. -/
def handleMessage (m : VoskMsg) : List STTFrame :=
  match m.text with
  | some t => if t ≠ "" then [.transcription t] else []
  | none =>
    match m.interim with
    | some p => if p ≠ "" then [.interimTranscription p] else []
    | none => []

/-- A raw websocket message: either it parses (`json.loads` succeeds) to
a `VoskMsg`, or it is malformed and `json.loads` raises. -/
inductive RawMsg where
  | valid (m : VoskMsg)
  | malformed (s : String)
deriving DecidableEq, Repr

/-- Shallow embedding of `VoskSTTService._receive_messages` (stt.py
lines 65-87) over the finite list of messages the socket delivers:
messages are processed in order; `json.loads` on a malformed message
raises, which aborts the `async for` — the result is the frames pushed
so far, plus the raised error and the messages left unread. -/
def receiveMessages : List RawMsg → List STTFrame × Option (String × List RawMsg)
  | [] => ([], none)
  | .valid m :: rest =>
      let (fs, e) := receiveMessages rest
      (handleMessage m ++ fs, e)
  | .malformed s :: rest => ([], some (s, rest))

/-- Modelled from the spec: `WebsocketService._receive_task_handler` is
not under src/. Per the spec, a malformed message surfaces as a local
decode failure reported as an error frame, and the loop then continues
reading subsequent messages; the loop ends when the socket closes. -/
def receiveTaskHandler : List RawMsg → List STTFrame
  | [] => []
  | .valid m :: rest => handleMessage m ++ receiveTaskHandler rest
  | .malformed s :: rest =>
      .error ("Vosk JSON decode error: " ++ s) :: receiveTaskHandler rest

/-- Connection-relevant state of a `VoskSTTService` instance: the
optional websocket handle (`self._websocket`); a handle is a `Nat`
identifier. `none` is the Disconnected state of the spec. -/
structure STTState where
  websocket : Option Nat
deriving DecidableEq, Repr

/-- Modelled from the spec: `WebsocketService.__init__` (not under src/)
constructs the adapter with no live connection, the spec's
`ConnectionState = Disconnected`. -/
def initialSTTState : STTState := ⟨none⟩

/-- How one `_connect_websocket` attempt can go: `websockets.connect`
raises; or it returns a socket but sending the configuration handshake
raises; or both succeed. -/
inductive ConnectOutcome where
  | openFail (e : String)
  | sendFail (e : String)
  | success
deriving DecidableEq, Repr

/-- Shallow embedding of `VoskSTTService._connect_websocket` (stt.py
lines 49-58) given the outcome of the attempt and the handle the socket
library would return: on open failure nothing was assigned and the
exception is re-raised; on handshake-send failure `self._websocket` has
already been assigned the new handle, then the exception is re-raised;
on success the handle is assigned. The second component is the raised
exception, if any. -/
def connectWebsocket (st : STTState) (o : ConnectOutcome) (handle : Nat) :
    STTState × Option String :=
  match o with
  | .openFail e => (st, some e)
  | .sendFail e => ({ st with websocket := some handle }, some e)
  | .success => ({ st with websocket := some handle }, none)

/-- stt.py lines 91-92: `run_stt` lazily connects only when
`self._websocket` is falsy. -/
def runSttAttemptsConnect (st : STTState) : Bool :=
  st.websocket.isNone

/-- Shallow embedding of `VoskSTTService._disconnect_websocket` (stt.py
lines 60-63): when a websocket handle is present it is closed and the
field is reset to `None`; otherwise the call is a no-op. It is total:
no path raises. -/
def disconnectWebsocket (st : STTState) : STTState :=
  match st.websocket with
  | some _ => ⟨none⟩
  | none => st

/-- `sub` occurs as a contiguous substring of `s`. -/
def strContains (s sub : String) : Prop :=
  sub.toList <:+: s.toList

instance (s sub : String) : Decidable (strContains s sub) :=
  inferInstanceAs (Decidable (sub.toList <:+: s.toList))

/-! ## Helper lemmas -/

/-- Processing the stream with `rem` header bytes still to discard emits
exactly the bytes of the stream after its first `rem` bytes, however the
stream is chunked. -/
theorem stripHeaderStream_flatten (chunks : List (List Nat)) (rem : Nat) :
    (stripHeaderStream rem chunks).flatten = chunks.flatten.drop rem := by
  induction chunks generalizing rem with
  | nil => simp [stripHeaderStream]
  | cons c cs ih =>
    simp only [stripHeaderStream, List.flatten_cons]
    rw [List.drop_append_eq_append_drop]
    by_cases h : (c.drop rem).isEmpty
    · rw [if_pos h, ih]
      rw [List.isEmpty_iff] at h
      rw [h, List.nil_append]
    · rw [if_neg h, List.flatten_cons, ih]

/-- `audioBytes` distributes over list append. -/
theorem audioBytes_append (l r : List TTSFrame) :
    audioBytes (l ++ r) = audioBytes l ++ audioBytes r := by
  induction l with
  | nil => rfl
  | cons f fs ih => cases f <;> simp [audioBytes, ih]

/-- The audio bytes of a pure audio-frame sequence are its payloads,
concatenated. -/
theorem audioBytes_map_audioFrame (l : List (List Nat)) :
    audioBytes (l.map TTSFrame.audioFrame) = l.flatten := by
  induction l with
  | nil => rfl
  | cons c cs ih => simp [audioBytes, ih]

/-- Audio frames are not error frames: they contribute no error count. -/
theorem countErrors_map_audioFrame (l : List (List Nat)) :
    countErrors (l.map TTSFrame.audioFrame) = 0 := by
  induction l with
  | nil => rfl
  | cons c cs ih =>
    simp only [List.map_cons, countErrors, List.countP_cons] at *
    simp [isErrorFrame, ih]

/-- Audio frames are not stop frames: they contribute no stop count. -/
theorem countStopped_map_audioFrame (l : List (List Nat)) :
    countStopped (l.map TTSFrame.audioFrame) = 0 := by
  induction l with
  | nil => rfl
  | cons c cs ih =>
    simp only [List.map_cons, countStopped, List.countP_cons] at *
    simp [isStoppedFrame, ih]

/-- The `try`/`except` body never yields a `TTSStoppedFrame`: the stop
marker comes only from the `finally` block. -/
theorem countStopped_run_tts_body (ex : TTSExchange) :
    countStopped (run_tts_body ex) = 0 := by
  cases ex with
  | requestError e => rfl
  | response r =>
    rcases r with ⟨s, bt, chunks, se⟩
    by_cases hs : s = 200
    · subst hs
      cases se <;>
        simp [run_tts_body, countStopped, List.countP_cons, List.countP_append,
          isStoppedFrame, countStopped_map_audioFrame (streamAudioFrames chunks)]
    · cases bt <;> simp [run_tts_body, hs, countStopped, List.countP_cons, isStoppedFrame]

/-! ## Claim theorems -/

/-- C3: every `run_tts` invocation — success, non-2xx response, or an
exception during the HTTP exchange or stream read — emits exactly one
`TTSStoppedFrame`, and it is the last frame of the produced sequence. -/
theorem run_tts_stop_exactly_once_and_last (ex : TTSExchange) :
    countStopped (run_tts ex) = 1 ∧
    (run_tts ex).getLast? = some TTSFrame.ttsStoppedFrame := by
  constructor
  · simp [run_tts, countStopped, List.countP_append, List.countP_cons, isStoppedFrame]
    simpa [countStopped] using countStopped_run_tts_body ex
  · simp [run_tts, List.getLast?_concat]

/-- C6: for a successful (status 200) response delivered in any
chunking whatsoever, the audio frames emitted by `run_tts` concatenate
to exactly the total response bytes with exactly the first 44 header
bytes discarded; the right-hand side depends only on the flattened byte
content, so the result is independent of chunk boundaries. -/
theorem run_tts_header_stripping_size_exact (bt : Except String String)
    (chunks : List (List Nat)) :
    audioBytes (run_tts (.response ⟨200, bt, chunks, none⟩)) =
      chunks.flatten.drop wavHeaderSize := by
  simp [run_tts, run_tts_body, audioBytes, audioBytes_append,
    audioBytes_map_audioFrame, streamAudioFrames, stripHeaderStream_flatten]

/-- C1 (counterexample): at status 500 with body "backend unavailable",
the produced sequence's sole error frame carries the status code only;
the response body text does not occur in it, contradicting the claim
that the error event carries both. -/
theorem run_tts_error_body_not_carried :
    run_tts (.response ⟨500, .ok "backend unavailable", [], none⟩) =
      [TTSFrame.errorFrame "Pocket TTS error: 500", TTSFrame.ttsStoppedFrame] ∧
    ¬ strContains "Pocket TTS error: 500" "backend unavailable" := by
  exact ⟨rfl, by decide⟩

/-- C1 (amended): a non-2xx (here: non-200) response yields exactly one
error event carrying the status code (the response body is read, and
logged, but not included in the event), followed immediately by the
Stop marker; no Start marker and no audio frames are produced, and the
error message does not depend on the body text. -/
theorem run_tts_non200_error_then_stop (s : Nat) (body : String)
    (chunks : List (List Nat)) (se : Option String) (h : s ≠ 200) :
    run_tts (.response ⟨s, .ok body, chunks, se⟩) =
      [TTSFrame.errorFrame ("Pocket TTS error: " ++ toString s),
       TTSFrame.ttsStoppedFrame] := by
  simp [run_tts, run_tts_body, h]

/-- C1 (witness): the amended theorem at status 500 and body
"backend unavailable". -/
theorem run_tts_non200_error_then_stop_witness :
    run_tts (.response ⟨500, .ok "backend unavailable", [], none⟩) =
      [TTSFrame.errorFrame ("Pocket TTS error: " ++ toString (500 : Nat)),
       TTSFrame.ttsStoppedFrame] :=
  run_tts_non200_error_then_stop 500 "backend unavailable" [] none (by decide)

/-- C10: `run_tts` treats exactly status 200 as success — every other
status, other 2xx codes included, produces no Start marker and no audio
frames, exactly one error event, and ends with the Stop marker. -/
theorem run_tts_only_200_is_success (s : Nat) (bt : Except String String)
    (chunks : List (List Nat)) (se : Option String) (h : s ≠ 200) :
    TTSFrame.ttsStartedFrame ∉ run_tts (.response ⟨s, bt, chunks, se⟩) ∧
    (∀ b, TTSFrame.audioFrame b ∉ run_tts (.response ⟨s, bt, chunks, se⟩)) ∧
    countErrors (run_tts (.response ⟨s, bt, chunks, se⟩)) = 1 ∧
    (run_tts (.response ⟨s, bt, chunks, se⟩)).getLast? =
      some TTSFrame.ttsStoppedFrame := by
  cases bt <;>
    simp [run_tts, run_tts_body, h, countErrors, List.countP_cons, List.countP_append,
      isErrorFrame, List.getLast?_concat]

/-- C10 (witness): the theorem at the other-2xx statuses 201 and 204. -/
theorem run_tts_only_200_is_success_witness :
    (TTSFrame.ttsStartedFrame ∉ run_tts (.response ⟨201, .ok "created", [], none⟩) ∧
     (∀ b, TTSFrame.audioFrame b ∉ run_tts (.response ⟨201, .ok "created", [], none⟩)) ∧
     countErrors (run_tts (.response ⟨201, .ok "created", [], none⟩)) = 1 ∧
     (run_tts (.response ⟨201, .ok "created", [], none⟩)).getLast? =
       some TTSFrame.ttsStoppedFrame) ∧
    (TTSFrame.ttsStartedFrame ∉ run_tts (.response ⟨204, .ok "", [], none⟩) ∧
     (∀ b, TTSFrame.audioFrame b ∉ run_tts (.response ⟨204, .ok "", [], none⟩)) ∧
     countErrors (run_tts (.response ⟨204, .ok "", [], none⟩)) = 1 ∧
     (run_tts (.response ⟨204, .ok "", [], none⟩)).getLast? =
       some TTSFrame.ttsStoppedFrame) :=
  ⟨run_tts_only_200_is_success 201 (.ok "created") [] none (by decide),
   run_tts_only_200_is_success 204 (.ok "") [] none (by decide)⟩

/-- C7: every exception raised during the HTTP exchange or stream read
is converted into exactly one error event; the sequence still ends with
the Stop marker (nothing propagates: `run_tts` is total), and the
adapter remains usable — the frames of any subsequent call depend only
on that call's own exchange outcome. -/
theorem run_tts_exception_isolated (ex : TTSExchange)
    (h : raisesDuringExchange ex = true) :
    countErrors (run_tts ex) = 1 ∧
    (run_tts ex).getLast? = some TTSFrame.ttsStoppedFrame ∧
    (∀ st ex2, (runTTSCall (runTTSCall st ex).1 ex2).2 = run_tts ex2) := by
  refine ⟨?_, by simp [run_tts, List.getLast?_concat], fun st ex2 => rfl⟩
  cases ex with
  | requestError e => rfl
  | response r =>
    rcases r with ⟨s, bt, chunks, se⟩
    by_cases hs : s = 200
    · subst hs
      have hse : se.isSome = true := by simpa [raisesDuringExchange] using h
      obtain ⟨e, he⟩ := Option.isSome_iff_exists.mp hse
      subst he
      simp [run_tts, run_tts_body, countErrors, List.countP_cons, List.countP_append,
        isErrorFrame, countErrors_map_audioFrame (streamAudioFrames chunks)]
    · cases bt with
      | error e =>
        simp [run_tts, run_tts_body, hs, countErrors, List.countP_cons, isErrorFrame]
      | ok body =>
        simp [raisesDuringExchange, hs] at h

/-- C7 (witness): the theorem at a POST that raises
"Connection refused". -/
theorem run_tts_exception_isolated_witness :
    countErrors (run_tts (.requestError "Connection refused")) = 1 ∧
    (run_tts (.requestError "Connection refused")).getLast? =
      some TTSFrame.ttsStoppedFrame ∧
    (∀ st ex2,
      (runTTSCall (runTTSCall st (.requestError "Connection refused")).1 ex2).2 =
        run_tts ex2) :=
  run_tts_exception_isolated (.requestError "Connection refused") rfl

/-- C2 (counterexample): the message carrying an empty "text" field and
the non-empty "partial" value "h" produces zero events — the `elif`
means the "text" key shadows the "partial" key — contradicting the
claim that every message containing a non-empty `partial` field
produces a Partial event. -/
theorem handleMessage_shadowed_interim :
    (VoskMsg.mk (some "") (some "h")).interim = some "h" ∧
    ("h" : String) ≠ "" ∧
    handleMessage ⟨some "", some "h"⟩ = [] :=
  ⟨rfl, by decide, rfl⟩

/-- C2 (amended): a Final event is emitted iff the message has a
non-empty `text` field; a Partial event is emitted iff the message has
no `text` field and a non-empty `partial` field (the `text` key takes
precedence, so a message with an empty `text` field and a non-empty
`partial` field produces nothing); messages whose `text`/`partial`
values are empty, and messages with neither key, produce zero events. -/
theorem handleMessage_dispatch_policy (m : VoskMsg) :
    ((∃ t, STTFrame.transcription t ∈ handleMessage m) ↔
      (∃ t, m.text = some t ∧ t ≠ "")) ∧
    ((∃ p, STTFrame.interimTranscription p ∈ handleMessage m) ↔
      (m.text = none ∧ ∃ p, m.interim = some p ∧ p ≠ "")) ∧
    (handleMessage m = [] ↔
      (m.text = some "" ∨
       (m.text = none ∧ (m.interim = none ∨ m.interim = some "")))) := by
  obtain ⟨t?, p?⟩ := m
  cases t? with
  | some t =>
    by_cases ht : t = "" <;> simp [handleMessage, ht]
  | none =>
    cases p? with
    | some p =>
      by_cases hp : p = "" <;> simp [handleMessage, hp]
    | none => simp [handleMessage]

/-- C4: when the socket delivers a malformed message, `json.loads`
raises out of `_receive_messages` (with `fs` the frames pushed so far
and `rest` the unread messages); the task handler reports that decode
failure as one error frame and then continues reading the subsequent
messages, so the frames actually pushed extend past the failure. -/
theorem receive_decode_failure_reported_and_loop_continues
    (msgs : List RawMsg) (fs : List STTFrame) (s : String) (rest : List RawMsg)
    (h : receiveMessages msgs = (fs, some (s, rest))) :
    receiveTaskHandler msgs =
      fs ++ STTFrame.error ("Vosk JSON decode error: " ++ s) ::
        receiveTaskHandler rest := by
  induction msgs generalizing fs with
  | nil => simp [receiveMessages] at h
  | cons hd tl ih =>
    cases hd with
    | valid m =>
      rcases hrec : receiveMessages tl with ⟨fs', e'⟩
      simp only [receiveMessages, hrec, Prod.mk.injEq] at h
      obtain ⟨hfs, he⟩ := h
      subst he
      simp only [receiveTaskHandler, ih fs' hrec, ← hfs, List.append_assoc]
    | malformed s' =>
      simp only [receiveMessages, Prod.mk.injEq, Option.some.injEq] at h
      obtain ⟨hfs, hs', hrest⟩ := h
      subst hfs
      subst hs'
      subst hrest
      simp [receiveTaskHandler]

/-- C4 (witness): the theorem on the concrete socket delivery
[valid final "hi", malformed "not json", valid interim "he"]. -/
theorem receive_decode_failure_witness :
    receiveTaskHandler
        [RawMsg.valid ⟨some "hi", none⟩, RawMsg.malformed "not json",
         RawMsg.valid ⟨none, some "he"⟩] =
      [STTFrame.transcription "hi"] ++
        STTFrame.error ("Vosk JSON decode error: " ++ "not json") ::
          receiveTaskHandler [RawMsg.valid ⟨none, some "he"⟩] :=
  receive_decode_failure_reported_and_loop_continues
    [RawMsg.valid ⟨some "hi", none⟩, RawMsg.malformed "not json",
     RawMsg.valid ⟨none, some "he"⟩]
    [STTFrame.transcription "hi"] "not json"
    [RawMsg.valid ⟨none, some "he"⟩] rfl

/-- C5 (counterexample): on a fresh adapter, a connect attempt whose
socket opens but whose handshake send fails re-raises, yet leaves the
newly opened socket handle assigned — the adapter is not in the
Disconnected (no-handle) state, and the lazy connect of the audio send
path will not attempt a fresh connection. -/
theorem connect_handshake_failure_retains_handle :
    connectWebsocket initialSTTState (.sendFail "broken pipe") 1 =
      (⟨some 1⟩, some "broken pipe") ∧
    (connectWebsocket initialSTTState (.sendFail "broken pipe") 1).1 ≠
      initialSTTState ∧
    runSttAttemptsConnect
      (connectWebsocket initialSTTState (.sendFail "broken pipe") 1).1 = false := by
  refine ⟨rfl, ?_, rfl⟩
  decide

/-- C5 (amended): if the socket cannot be opened, connect re-raises and
the connection handle is unchanged — on a fresh adapter still absent —
so a subsequent connect (including the lazy connect of the audio send
path) attempts a fresh connection; but if the handshake send fails,
connect re-raises with the newly opened socket handle still assigned,
so the adapter is not left in the Disconnected state and the lazy
connect path will not attempt a fresh connection. -/
theorem connectWebsocket_failure_behaviour (e : String) (handle : Nat) :
    connectWebsocket initialSTTState (.openFail e) handle =
      (initialSTTState, some e) ∧
    runSttAttemptsConnect initialSTTState = true ∧
    connectWebsocket initialSTTState (.sendFail e) handle =
      (⟨some handle⟩, some e) ∧
    runSttAttemptsConnect ⟨some handle⟩ = false :=
  ⟨rfl, rfl, rfl, rfl⟩

/-- C9: `_disconnect_websocket` is idempotent and total — a second call
(or a call on a never-connected adapter) changes nothing and raises
nothing, and after any call the adapter holds no connection handle. -/
theorem disconnectWebsocket_idempotent (st : STTState) :
    disconnectWebsocket (disconnectWebsocket st) = disconnectWebsocket st ∧
    (disconnectWebsocket st).websocket = none ∧
    disconnectWebsocket initialSTTState = initialSTTState := by
  obtain ⟨ws⟩ := st
  cases ws <;> simp [disconnectWebsocket, initialSTTState]

end Pipecat
